import Mathlib

/-!
Verification of the schema-to-model resolution core of `jrc.py` (JRC pyang
plugin): identifier normalization (`camelize` / `normalize`), type resolution
(`get_types` / `get_base_type`), schema navigation (`get_parent`,
`get_module`), package-path derivation (`get_package` / `get_api_package`),
the duck-typed child search (`search` / `search_one`), key resolution
(`is_config` / `get_stmt_key`), diagnostic triage in `JRCPlugin.emit`, and
the module walk (`generate_from`, `ClassGenerator.generate_class`, the
augment-target map and the done set).

Python statements are represented as nodes of an arena (`Env`), machine text
as Lean `String`/`List Char`, fallible code as `Except`.  Functions whose
termination depends on the shape of the statement graph take an explicit
fuel argument; the source relies on the parser guaranteeing acyclicity.
All definitions are translated from the Python source; elided parts (pure
template-text emission) are marked where they occur.
-/

/-- A pyang statement keyword: either a core YANG keyword such as
`container`, or an extension keyword, which pyang stores as a
`(prefix, name)` tuple such as `('csp-common', 'vertex')`. -/
inductive KW where
  | simple (s : String)
  | ext (pfx nm : String)
  deriving DecidableEq, Repr

/-- One pyang statement, flattened into an arena node.  Cross links
(`parent`, `top`, `i_typedef`, the resolved leafref target, `i_orig_module`,
`i_target_node`) are arena indices.  `iTypedef` distinguishes a missing
attribute (`none`, Python `AttributeError`) from an attribute that is
present but `None` (`some none`).  `iChildren` is `none` when the statement
has no `i_children` attribute. -/
structure Stmt where
  keyword : KW
  arg : Option String
  parent : Option Nat
  top : Option Nat
  substmts : List Nat
  iChildren : Option (List Nat)
  iTypedef : Option (Option Nat)
  iLeafref : Option Nat
  iOrigModule : Nat
  iTargetNode : Option Nat
  deriving DecidableEq, Repr

/-- The statement arena: node id to statement. -/
def Env : Type := Nat → Option Stmt

/-- The pyang context facts the plugin reads: `ctx.rootpkg`, the option
flags, and the `(name, revision) -> module` table `ctx.modules`. -/
structure Ctx where
  rootpkg : String
  debug : Bool
  verbose : Bool
  ignore : Bool
  noClasses : Bool
  modules : List ((String × String) × Nat)
  deriving DecidableEq, Repr

/-- The run's warning state: the global `outputted_warnings` dedup list and
the log of lines written to stderr. -/
structure WarnSt where
  outputted : List String
  printed : List String
  deriving DecidableEq, Repr

/-- The empty warning state at the start of a run. -/
def emptyWarn : WarnSt := { outputted := [], printed := [] }

/-- Python exceptions that the modelled code can raise (plus `outOfFuel`
for exhausted fuel, which no claim instance reaches, and `keyError` for an
arena id with no node, unreachable for well-formed trees). -/
inductive PyErr where
  | attributeError
  | assertionError
  | typeError
  | emitError
  | nameError
  | keyError
  | outOfFuel
  deriving DecidableEq, Repr

/-- Python `str.split(sep)` for a one-character separator, on char lists:
`''.split('/') == ['']`, `'a/b'.split('/') == ['a','b']`. -/
def splitOnCharList (sep : Char) : List Char → List (List Char)
  | [] => [[]]
  | c :: rest =>
    match splitOnCharList sep rest with
    | [] => if c = sep then [[], []] else [[c]]
    | g :: gs => if c = sep then [] :: g :: gs else (c :: g) :: gs

/-- Python `str.split(sep)` for a one-character separator. -/
def pySplit (s : String) (sep : Char) : List String :=
  (splitOnCharList sep s.data).map String.mk

/-- Python `sep.join(parts)`. -/
def joinWith (sep : String) : List String → String
  | [] => ""
  | [x] => x
  | x :: xs => x ++ sep ++ joinWith sep xs

/-- Python `str.lower()` (ASCII range, which covers YANG identifiers). -/
def lowerStr (s : String) : String := String.mk (s.data.map Char.toLower)

/-- Models `capitalize_first`: the first character upper-cased. -/
def capitalizeFirst (s : String) : String :=
  match s.data with
  | [] => ""
  | c :: cs => String.mk (c.toUpper :: cs)

/-- Models `decapitalize_first`: the first character lower-cased. -/
def decapitalizeFirst (s : String) : String :=
  match s.data with
  | [] => ""
  | c :: cs => String.mk (c.toLower :: cs)

/-- Python `str.isupper()` (ASCII): at least one cased character and no
lower-case character. -/
def pyIsUpper (s : String) : Bool :=
  s.data.any (fun c => c.isUpper) && !(s.data.any (fun c => c.isLower))

/-- Membership in a list of strings (Python `in` on a set of strings). -/
def listContainsStr (l : List String) (s : String) : Bool :=
  l.any (fun w => w = s)

/-- Models `java_reserved_words` from the source. -/
def javaReservedWords : List String :=
  ["abstract", "assert", "boolean", "break", "byte",
   "case", "catch", "char", "class", "const", "continue",
   "default", "double", "do", "else", "enum", "extends",
   "false", "final", "finally", "float", "for", "goto",
   "if", "implements", "import", "instanceof", "int",
   "interface", "long", "native", "new", "null", "package",
   "private", "protected", "public", "return", "short",
   "static", "strictfp", "super", "switch", "synchronized",
   "this", "throw", "throws", "transient", "true", "try",
   "void", "volatile", "while"]

/-- Models `java_literals` from the source. -/
def javaLiterals : List String := ["true", "false", "null"]

/-- The body of `camelize`'s `pairwise` loop over the decapitalized
characters, for an input of length greater than one.  Each step sees the
current character and its successor; a separator (`-`, `.`, `_`) appends
the capitalized successor and skips one iterator step; an upper-case
character followed by an upper-case or non-alphabetic character is
lower-cased; otherwise the character is kept.  The final `(c, None)` pair
appends the character unchanged (length-one inputs are handled by the
caller, matching the source's `len(string) > 1` test). -/
def camelizeChars : List Char → List Char
  | [] => []
  | [c] => [c]
  | c :: d :: rest =>
    if c = '-' ∨ c = '.' ∨ c = '_' then
      d.toUpper :: camelizeChars rest
    else if c.isUpper ∧ (d.isUpper ∨ ¬ d.isAlpha) then
      c.toLower :: camelizeChars (d :: rest)
    else
      c :: camelizeChars (d :: rest)

/-- Models `camelize` on a present argument, without the memo cache (the cache is
modelled separately as a state machine; see `camelizeCall`).  After the
character loop, a result in the reserved set gets `_` appended, and a
result starting with a digit gets `_` prepended; both tests inspect the
pre-escape result, as in the source. -/
def camelizeRaw (s : String) : String :=
  let base : List Char :=
    if s.data.length = 1 then
      match (decapitalizeFirst s).data with
      | [c] => if pyIsUpper s then [c.toUpper] else [c.toLower]
      | cs => cs
    else camelizeChars (decapitalizeFirst s).data
  let res0 := String.mk base
  let base1 :=
    if listContainsStr (javaReservedWords ++ javaLiterals) res0 then base ++ ['_'] else base
  let base2 :=
    match res0.data with
    | c :: _ => if c.isDigit then '_' :: base1 else base1
    | [] => base1
  String.mk base2

/-- Models `camelize` including the `string is None` case, which yields `''`. -/
def camelizeOpt : Option String → String
  | none => ""
  | some s => camelizeRaw s

/-- True when the string starts with `_` (Python `res.startswith('_')`). -/
def startsU (s : String) : Bool :=
  match s.data with
  | '_' :: _ => true
  | _ => false

/-- True when the string ends with `_` (Python `res.endswith('_')`). -/
def endsU (s : String) : Bool :=
  match s.data.getLast? with
  | some '_' => true
  | _ => false

/-- The body of `normalize` applied to a `camelize` result `res`: Python
computes `start = 1 if res.startswith('_') else 0`,
`end = -1 if res.endswith('_') else 0` and, when either escape marker is
present, returns `'J' + capitalize_first(res[start:end])`.  The Python
slice `res[start:end]` is `(drop start).take (end' - start)` where a `0`
end bound denotes position 0, so for a leading-only underscore the slice
`res[1:0]` is empty. -/
def normalizeFromCam (res : String) : String :=
  let b : Nat := if startsU res then 1 else 0
  let e : Nat := if endsU res then res.data.length - 1 else 0
  if startsU res || endsU res then
    "J" ++ capitalizeFirst (String.mk ((res.data.drop b).take (e - b)))
  else
    capitalizeFirst res

/-- Models `normalize` on a present argument, without the memo cache. -/
def normalizeRaw (s : String) : String := normalizeFromCam (camelizeRaw s)

/-- Models `normalize` including the `None` argument case. -/
def normalizeOpt (o : Option String) : String := normalizeFromCam (camelizeOpt o)

/-- The two global memo caches, `camelized_stmt_args` and
`normalized_stmt_args`, as association lists in insertion order. -/
structure CacheSt where
  cam : List (String × String)
  norm : List (String × String)
  deriving DecidableEq, Repr

/-- The empty caches at interpreter start. -/
def initialCaches : CacheSt := { cam := [], norm := [] }

/-- Dictionary lookup (Python `dict[key]` guarded by `try/except KeyError`). -/
def lookupCache (m : List (String × String)) (k : String) : Option String :=
  (m.find? (fun p => p.1 = k)).map (fun p => p.2)

/-- Models `camelize` with its cache: return the cached value on a hit, otherwise
compute `camelizeRaw` and record it. -/
def camelizeCall (st : CacheSt) (s : String) : String × CacheSt :=
  match lookupCache st.cam s with
  | some v => (v, st)
  | none =>
    let r := camelizeRaw s
    (r, { st with cam := st.cam ++ [(s, r)] })

/-- Models `normalize` with its cache: on a miss it calls the cached `camelize`
(possibly filling that cache too) and records the derived type form. -/
def normalizeCall (st : CacheSt) (s : String) : String × CacheSt :=
  match lookupCache st.norm s with
  | some v => (v, st)
  | none =>
    let p := camelizeCall st s
    let res := normalizeFromCam p.1
    (res, { p.2 with norm := p.2.norm ++ [(s, res)] })

/-- One call against the caches: either `camelize(s)` or `normalize(s)`. -/
inductive NameCall where
  | cam (s : String)
  | norm (s : String)
  deriving DecidableEq, Repr

/-- Run a sequence of cached calls, keeping only the cache state. -/
def runCalls (st : CacheSt) : List NameCall → CacheSt
  | [] => st
  | NameCall.cam s :: rest => runCalls (camelizeCall st s).2 rest
  | NameCall.norm s :: rest => runCalls (normalizeCall st s).2 rest

/-- Models `print_warning` from the source.  It prints only when the key is new
(or empty) and either no context was supplied or the context is in
debug/verbose mode; an empty message is replaced by the default
unsupported-type message (the recursive call in the source re-checks the
same unchanged guard, so the substitution is done up front here).
The key is recorded in `outputted_warnings` only when a message is
actually printed with a nonempty key. -/
def printWarning (msg key : String) (ctxFlags : Option (Bool × Bool)) (st : WarnSt) : WarnSt :=
  let msg1 :=
    if msg = "" then "No support for type \x22" ++ key ++ "\x22, defaulting to string." else msg
  let allowed :=
    match ctxFlags with
    | none => true
    | some (d, v) => d || v
  if (key = "" ∨ ¬ key ∈ st.outputted) ∧ allowed = true then
    { st with
      printed := st.printed ++ ["WARNING: " ++ msg1],
      outputted := if key = "" then st.outputted else st.outputted ++ [key] }
  else st

/-- The dedup key of `search`'s `iterate`: keyword plus camelized argument
for core keywords; for extension (tuple) keywords the string join raises
`TypeError` and the handler joins the tuple parts (with a colon when an
argument is present). -/
def searchKey (s : Stmt) : String :=
  match s.keyword with
  | KW.simple k => k ++ " " ++ camelizeOpt s.arg
  | KW.ext a b =>
    match s.arg with
    | none => a ++ " " ++ b
    | some arg => a ++ ":" ++ b ++ " " ++ camelizeRaw arg

mutual

/-- Models `search`'s inner `_search`: when one of `typedef`/`import`/`augment`/
`include` is among the requested keywords, first iterate over the raw
substatements (the keyword-list swap in the source rebinds a local that
the `iterate` closure does not read, so filtering still uses the original
keywords); then iterate over `i_children`, falling back to the raw
substatements when that attribute is absent. -/
def searchRec : Nat → Env → List String → Nat → List (String × Nat) → List (String × Nat)
  | 0, _, _, _, acc => acc
  | fuel + 1, env, kws, sid, acc =>
    match env sid with
    | none => acc
    | some s =>
      let acc1 :=
        if ["typedef", "import", "augment", "include"].any (fun x => listContainsStr kws x) then
          searchIter fuel env kws s.substmts acc
        else acc
      searchIter fuel env kws (s.iChildren.getD s.substmts) acc1

/-- Models `search`'s inner `iterate`: choice and case children are recursed into
(when neither is itself searched for), every other child is keyed,
deduplicated, and kept when its keyword is among the requested ones. -/
def searchIter : Nat → Env → List String → List Nat → List (String × Nat) → List (String × Nat)
  | 0, _, _, _, acc => acc
  | _ + 1, _, _, [], acc => acc
  | fuel + 1, env, kws, ch :: rest, acc =>
    let acc1 :=
      match env ch with
      | none => acc
      | some s =>
        if (¬ listContainsStr kws "choice" ∧ ¬ listContainsStr kws "case") ∧
            (s.keyword = KW.simple "choice" ∨ s.keyword = KW.simple "case") then
          searchRec fuel env kws ch acc
        else
          let key := searchKey s
          if acc.any (fun p => p.1 = key) then acc
          else if kws.any (fun k => s.keyword = KW.simple k) then acc ++ [(key, ch)]
          else acc
    searchIter fuel env kws rest acc1

end

/-- Models `search(stmt, keywords)`: the collected statement ids in insertion
order. -/
def searchList (fuel : Nat) (env : Env) (sid : Nat) (kws : List String) : List Nat :=
  (searchRec fuel env kws sid []).map (fun p => p.2)

/-- pyang's `Statement.search_one(keyword, arg, children)`: first child in
the given list whose keyword matches and, when an argument filter is
given, whose argument matches. -/
def statementSearchOne (env : Env) (children : List Nat) (kw : KW) (arg : Option String) :
    Option Nat :=
  children.find? (fun ch =>
    match env ch with
    | none => false
    | some s => s.keyword = kw ∧ (arg = none ∨ s.arg = arg))

/-- A keyword as `search` receives it from `search_one`'s fallback call: a
plain string is whitespace-split, a tuple keyword is iterated as its two
components. -/
def kwToStrings : KW → List String
  | KW.simple s => pySplit s ' '
  | KW.ext a b => [a, b]

/-- The module's `search_one`: `Statement.search_one` over the raw
substatements, then (when present) over `i_children`, then the first
result of the `search` fallback, which ignores the argument filter. -/
def searchOne (fuel : Nat) (env : Env) (sid : Nat) (kw : KW) (arg : Option String) :
    Option Nat :=
  match env sid with
  | none => none
  | some s =>
    match statementSearchOne env s.substmts kw arg with
    | some r => some r
    | none =>
      let second :=
        match s.iChildren with
        | some ch => statementSearchOne env ch kw arg
        | none => none
      match second with
      | some r => some r
      | none => (searchList fuel env sid (kwToStrings kw)).head?

/-- Models `get_module`: follow `top` to the root; a root module is returned
directly, a root submodule is resolved through its `belongs-to` argument
against `ctx.modules` (first match in table order; no match yields the
source's implicit `None`).  A submodule with no `belongs-to` substatement
raises in the source; the claims only exercise resolvable trees, so the
lookup of the argument is threaded as an option. -/
def getModule : Nat → Env → Ctx → Nat → Option Nat
  | 0, _, _, _ => none
  | fuel + 1, env, ctx, sid =>
    match env sid with
    | none => none
    | some s =>
      match s.top with
      | some t => getModule fuel env ctx t
      | none =>
        if s.keyword = KW.simple "module" then some sid
        else
          match searchOne fuel env sid (KW.simple "belongs-to") none with
          | none => none
          | some bt =>
            match (env bt).bind (fun b => b.arg) with
            | none => none
            | some nm =>
              ((ctx.modules.find? (fun p => p.1.1 = nm)).map (fun p => p.2))

/-- Models `get_parent`: the closest ancestor that is not a choice, case or
submodule statement; a submodule lexical parent redirects through
`get_module`, and a lexical parent that is itself the tree root is
returned unchanged. -/
def getParent : Nat → Env → Ctx → Nat → Option Nat
  | 0, _, _, _ => none
  | fuel + 1, env, ctx, sid =>
    match env sid with
    | none => none
    | some s =>
      match s.parent with
      | none => none
      | some p =>
        match env p with
        | none => none
        | some ps =>
          if ps.keyword = KW.simple "submodule" then getModule fuel env ctx sid
          else if ps.parent = none then some p
          else if ps.keyword = KW.simple "choice" ∨ ps.keyword = KW.simple "case" then
            getParent fuel env ctx p
          else some p

/-- The `while parent is not None` loop of `get_package` /
`get_api_package`, producing the `sub_packages` deque left to right.  Each
iteration prepends the camelized parent argument and, when the current
statement's origin module is a submodule, the statement is not a typedef
and the parent is the top of the tree, additionally prepends the camelized
origin-module argument (to the right of the parent segment, as the
source's two `appendleft` calls order them). -/
def pkgLoop : Nat → Env → Ctx → Nat → List String
  | 0, _, _, _ => []
  | fuel + 1, env, ctx, sid =>
    match getParent fuel env ctx sid with
    | none => []
    | some p =>
      let extra :=
        match env sid with
        | none => []
        | some s =>
          match env s.iOrigModule with
          | some om =>
            if om.keyword = KW.simple "submodule" ∧ s.keyword ≠ KW.simple "typedef" ∧
                getParent fuel env ctx p = none then
              [camelizeOpt om.arg]
            else []
          | none => []
      pkgLoop fuel env ctx p ++ ((match env p with
        | some ps => [camelizeOpt ps.arg]
        | none => []) ++ extra)

/-- Models `get_package`: root-prefix segments (split on the path separator),
then the fixed internal-variant segment `mo`, then the ancestor segments,
joined with dots. -/
def getPackage (fuel : Nat) (env : Env) (ctx : Ctx) (sid : Nat) : String :=
  joinWith "." (pySplit ctx.rootpkg '/' ++ ("mo" :: pkgLoop fuel env ctx sid))

/-- Models `get_api_package`: identical to `get_package` with variant segment
`api`. -/
def getApiPackage (fuel : Nat) (env : Env) (ctx : Ctx) (sid : Nat) : String :=
  joinWith "." (pySplit ctx.rootpkg '/' ++ ("api" :: pkgLoop fuel env ctx sid))

/-- Models `get_base_type`: follow nested `type` substatements through `i_typedef`
links until a union type, a statement with no `type` child, or a `type`
statement whose `i_typedef` is absent or `None`. -/
def getBaseType : Nat → Env → Nat → Option Nat
  | 0, _, _ => none
  | fuel + 1, env, sid =>
    match env sid with
    | none => none
    | some s =>
      if s.keyword = KW.simple "type" ∧ s.arg = some "union" then some sid
      else
        match searchOne fuel env sid (KW.simple "type") none with
        | none => some sid
        | some t =>
          match env t with
          | none => none
          | some ts =>
            match ts.iTypedef with
            | none => some t
            | some none => some t
            | some (some td) => getBaseType fuel env td

/-- Models `get_types`: jnc wrapper name and primitive classification of a type,
typedef, leaf or leaf-list statement.  Leaf statements substitute their
`type` child; `leafref` redirects through the leaf's resolved target; the
eight integer keywords select by signedness and width; a non-built-in
argument resolves through `i_typedef` to its base type, re-qualifying the
wrapper with the typedef's package when the typedef sits directly under a
module or submodule.  A `type` node with no `i_typedef` attribute keeps
the fallback wrapper/classification derived from its own normalized name
and emits one deduplicated warning keyed by package plus name.  An
`i_typedef` attribute that is present but `None` makes the source call
`get_base_type(None)`, which raises `AttributeError`. -/
def getTypes : Nat → Env → Ctx → WarnSt → Nat → Except PyErr ((String × String) × WarnSt)
  | 0, _, _, _, _ => Except.error PyErr.outOfFuel
  | fuel + 1, env, ctx, ws, sid =>
    match env sid with
    | none => Except.error PyErr.keyError
    | some s0 =>
      let tyRes : Except PyErr (Nat × Stmt) :=
        if s0.keyword = KW.simple "leaf" ∨ s0.keyword = KW.simple "leaf-list" then
          match searchOne fuel env sid (KW.simple "type") none with
          | some t =>
            match env t with
            | some ts => Except.ok (t, ts)
            | none => Except.error PyErr.keyError
          | none => Except.error PyErr.attributeError
        else Except.ok (sid, s0)
      match tyRes with
      | Except.error e => Except.error e
      | Except.ok (tid, t) =>
        if ¬ (t.keyword = KW.simple "type" ∨ t.keyword = KW.simple "typedef") then
          Except.error PyErr.assertionError
        else if t.arg = some "leafref" then
          match t.parent with
          | none => Except.error PyErr.attributeError
          | some pid =>
            match env pid with
            | none => Except.error PyErr.keyError
            | some ps =>
              match ps.iLeafref with
              | none => Except.error PyErr.attributeError
              | some tgt => getTypes fuel env ctx ws tgt
        else
          let primRes : Except PyErr String :=
            if t.keyword = KW.simple "typedef" then
              match getBaseType fuel env tid with
              | none => Except.error PyErr.outOfFuel
              | some b =>
                match env b with
                | none => Except.error PyErr.keyError
                | some bs => Except.ok (normalizeOpt bs.arg)
            else Except.ok (normalizeOpt t.arg)
          match primRes with
          | Except.error e => Except.error e
          | Except.ok prim1 =>
            let prim2 := if prim1 = "JBoolean" then "Boolean" else prim1
            let jnc0 := "com.tailf.jnc.Yang" ++ prim2
            let a := t.arg.getD ""
            if a = "string" ∨ a = "boolean" then Except.ok ((jnc0, prim2), ws)
            else if listContainsStr
                ["enumeration", "binary", "union", "empty",
                 "instance-identifier", "identityref"] a then
              Except.ok ((jnc0, "String"), ws)
            else if a = "bits" then Except.ok ((jnc0, "BigInteger"), ws)
            else if a = "decimal64" then Except.ok ((jnc0, "BigDecimal"), ws)
            else if listContainsStr
                ["int8", "int16", "int32", "int64",
                 "uint8", "uint16", "uint32", "uint64"] a then
              let unsigned := a.data.take 1 = ['u']
              let its : List String :=
                if unsigned then ["BigInteger", "long", "int", "short"]
                else ["long", "int", "short", "byte"]
              let jnc1 :=
                if unsigned then "com.tailf.jnc.YangUI" ++ String.mk (a.data.drop 2) else jnc0
              let last2 := String.mk (a.data.drop (a.data.length - 2))
              let prim3 :=
                if last2 = "64" then its.getD 0 ""
                else if last2 = "32" then its.getD 1 ""
                else if last2 = "16" then its.getD 2 ""
                else its.getD 3 ""
              Except.ok ((jnc1, prim3), ws)
            else
              match t.iTypedef with
              | none =>
                if t.keyword = KW.simple "typedef" then
                  Except.ok ((jnc0, normalizeOpt t.arg), ws)
                else
                  let pkg := getPackage fuel env ctx tid
                  let name := normalizeOpt t.arg
                  Except.ok ((jnc0, prim2),
                    printWarning "" (pkg ++ "." ++ name) (some (ctx.debug, ctx.verbose)) ws)
              | some none => Except.error PyErr.attributeError
              | some (some td) =>
                match getBaseType fuel env td with
                | none => Except.error PyErr.outOfFuel
                | some b =>
                  match getTypes fuel env ctx ws b with
                  | Except.error e => Except.error e
                  | Except.ok ((jnc2, prim4), ws2) =>
                    match getParent fuel env ctx td with
                    | none => Except.error PyErr.attributeError
                    | some pp =>
                      match env pp with
                      | none => Except.error PyErr.keyError
                      | some pps =>
                        if pps.keyword = KW.simple "module" ∨
                            pps.keyword = KW.simple "submodule" then
                          match env td with
                          | none => Except.error PyErr.keyError
                          | some tds =>
                            Except.ok
                              ((getPackage fuel env ctx td ++ "." ++ normalizeOpt tds.arg,
                                prim4), ws2)
                        else Except.ok ((jnc2, prim4), ws2)

/-- Models `is_config`: walk `get_parent` upward until a `config` substatement is
found or the chain ends; a `notification` ancestor forces `False`; a found
`config` statement decides by its argument being `true`; no `config`
anywhere means `True`. -/
def isConfig : Nat → Env → Ctx → Option Nat → Option Bool
  | 0, _, _, _ => none
  | fuel + 1, env, ctx, stmtOpt =>
    match stmtOpt with
    | none => some true
    | some sid =>
      match env sid with
      | none => none
      | some s =>
        if s.keyword = KW.simple "notification" then some false
        else
          match searchOne fuel env sid (KW.simple "config") none with
          | some c =>
            match env c with
            | some cs => some (cs.arg = some "true")
            | none => none
          | none => isConfig fuel env ctx (getParent fuel env ctx sid)

/-- The class-name tail of a jnc wrapper name: Python
`jnc[jnc.rfind('.') + 1:]` (the whole string when there is no dot). -/
def afterLastDot (s : String) : String :=
  ((pySplit s '.').getLast?).getD s

/-- The per-key body of `get_stmt_key`'s loop: look the key leaf up by
argument, camelize its name, resolve its `type` child through `get_types`,
and accumulate the name list and the `name: WrapperClass` parameter list.
A key name with no matching leaf makes the source dereference `None`
(`AttributeError`); a key leaf with no `type` child passes `None` to
`get_types`, which also raises `AttributeError`. -/
def getStmtKeyGo (fuel : Nat) (env : Env) (ctx : Ctx) (sid : Nat) :
    List String → WarnSt → List String → List String →
    Except PyErr ((String × String) × WarnSt)
  | [], ws, ka, para => Except.ok ((joinWith ", " ka, joinWith ", " para), ws)
  | k :: rest, ws, ka, para =>
    match searchOne fuel env sid (KW.simple "leaf") (some k) with
    | none => Except.error PyErr.attributeError
    | some ks =>
      let kaStr := camelizeOpt ((env ks).bind (fun x => x.arg))
      match searchOne fuel env ks (KW.simple "type") none with
      | none => Except.error PyErr.attributeError
      | some kt =>
        match getTypes fuel env ctx ws kt with
        | Except.error e => Except.error e
        | Except.ok ((jnc, _), ws2) =>
          getStmtKeyGo fuel env ctx sid rest ws2 (ka ++ [kaStr])
            (para ++ [kaStr ++ ": " ++ afterLastDot jnc])

/-- Models `ClassGenerator.get_stmt_key`: for a config statement the `key`
substatement's argument is split into key names; for each, the key leaf
and its wrapper type are resolved.  When the statement is config but has
no `key` substatement, `key.arg` raises `AttributeError` and the handler
then evaluates `'Unknown attribute: ' + key` with `key = None`, raising an
uncaught `TypeError`; the same happens when the `key` statement exists but
carries no argument (the handler concatenates a `Statement`). -/
def getStmtKey (fuel : Nat) (env : Env) (ctx : Ctx) (ws : WarnSt) (sid : Nat) :
    Except PyErr ((String × String) × WarnSt) :=
  match isConfig fuel env ctx (some sid) with
  | none => Except.error PyErr.outOfFuel
  | some cfg =>
    let keysE : Except PyErr (List String) :=
      if cfg then
        match searchOne fuel env sid (KW.simple "key") none with
        | none => Except.error PyErr.typeError
        | some k =>
          match (env k).bind (fun x => x.arg) with
          | none => Except.error PyErr.typeError
          | some a => Except.ok (pySplit a ' ')
      else Except.ok []
    match keysE with
    | Except.error e => Except.error e
    | Except.ok keys => getStmtKeyGo fuel env ctx sid keys ws [] []

/-- The tags that `JRCPlugin.emit` treats as fatal when they are at error
level: the module-not-found family. -/
def moduleNotFoundTags : List String := ["MODULE_NOT_FOUND", "MODULE_NOT_FOUND_REV"]

/-- The tags that `JRCPlugin.emit` demotes to a warning and continues
past. -/
def softTags : List String :=
  ["TYPE_NOT_FOUND", "FEATURE_NOT_FOUND", "IDENTITY_NOT_FOUND", "GROUPING_NOT_FOUND"]

/-- The `for (epos, etag, _) in ctx.errors` loop of `JRCPlugin.emit`: an
error-level module-not-found tag raises `EmitError` at once; a soft tag
prints a warning keyed by the tag and continues; every other tag prints an
`..., aborting.` warning and then raises `EmitError` (the warning state is
lost with the exception). -/
def checkErrorsGo (isErr : String → Bool) :
    List (String × String × Nat) → WarnSt → Except PyErr WarnSt
  | [], ws => Except.ok ws
  | (_, etag, _) :: rest, ws =>
    if isErr etag ∧ listContainsStr moduleNotFoundTags etag then
      Except.error PyErr.emitError
    else if listContainsStr softTags etag then
      checkErrorsGo isErr rest
        (printWarning (lowerStr etag ++ ", generated class hierarchy might be incomplete.")
          etag none ws)
    else Except.error PyErr.emitError

/-- The diagnostic triage at the top of `JRCPlugin.emit`: skipped entirely
when the ignore-errors option is set. -/
def checkErrors (isErr : String → Bool) (ignore : Bool)
    (errors : List (String × String × Nat)) (ws : WarnSt) : Except PyErr WarnSt :=
  if ignore then Except.ok ws else checkErrorsGo isErr errors ws

/-- Whether the result of the triage is a normal return. -/
def exceptOk : Except PyErr WarnSt → Bool
  | Except.ok _ => true
  | Except.error _ => false

/-- Models `yangelement_stmts` from the source (the keywords that yield generated
units); set iteration order in the source is unspecified, modelled in
literal order. -/
def yangelementKws : List String := ["container", "list", "notification", "rpc"]

/-- The generator-side state the class generation mutates: the global
`augmented_modules` map (insertion-ordered, keyed by target module
argument), the log of statements for which a generated unit (class file)
was produced, and the warning state.  The plugin's `done` set and the walk
log live one level up, in `WalkSt`: the generation routines never touch
them, as in the source. -/
structure GenSt where
  augmented : List (Option String × Nat)
  units : List Nat
  warn : WarnSt
  deriving DecidableEq, Repr

/-- Python `dict[k] = v`: replace in place on an existing key, append
otherwise. -/
def dictInsert (k : Option String) (v : Nat) : List (Option String × Nat) →
    List (Option String × Nat)
  | [] => [(k, v)]
  | (k', v') :: rest => if k' = k then (k, v) :: rest else (k', v') :: dictInsert k v rest

/-- Models `is_include_yangelement`: whether any raw substatement has a
yangelement keyword. -/
def isIncludeYangelement (env : Env) (sid : Nat) : Bool :=
  match env sid with
  | none => false
  | some s =>
    s.substmts.any (fun ch =>
      match env ch with
      | some c => yangelementKws.any (fun k => c.keyword = KW.simple k)
      | none => false)

/-- The call forms of the mutually recursive generation routines of
`ClassGenerator`, fused into one fuel-indexed step function so that the
recursion is structural on the fuel: `dispatch` is `generate()`, `cls` is
`generate_class`, `childList` its child loop, `classes` is
`generate_classes`, `routeList` its module loop, `route` is
`generate_routeclass` and `routeChildren` its child loop. -/
inductive GenCall where
  | dispatch (sid : Nat)
  | cls (sid : Nat)
  | childList (chs : List Nat)
  | classes (sid : Nat)
  | routeList (ms : List Nat)
  | route (m : Nat)
  | routeChildren (m : Nat) (chs : List Nat)
  deriving DecidableEq, Repr

/-- One step of the fused generation recursion; see the named wrappers
below for the correspondence with the source functions. -/
def genStep : Nat → Env → Ctx → GenSt → GenCall → Except PyErr GenSt
  | 0, _, _, _, _ => Except.error PyErr.outOfFuel
  | fuel + 1, env, ctx, st, call =>
    match call with
    | GenCall.dispatch sid =>
      -- `ClassGenerator.generate()`: modules and submodules go to
      -- `generate_classes`, lists and containers to `generate_class`,
      -- anything else (including an augment statement) generates nothing.
      match env sid with
      | none => Except.error PyErr.keyError
      | some s =>
        if s.keyword = KW.simple "module" ∨ s.keyword = KW.simple "submodule" then
          genStep fuel env ctx st (GenCall.classes sid)
        else if s.keyword = KW.simple "list" ∨ s.keyword = KW.simple "container" then
          genStep fuel env ctx st (GenCall.cls sid)
        else Except.ok st
    | GenCall.cls sid =>
      -- `ClassGenerator.generate_class`: an augment statement records its
      -- resolved target's module in `augmented_modules` (or warns when the
      -- target linkage is missing) and returns without generating a class
      -- or recursing; otherwise child generators run for the yangelement
      -- children, and a unit is produced only for statements carrying a
      -- `csp-common:vertex` or `csp-common:edge` extension that are not
      -- containers, with the key chain resolved through `get_stmt_key`
      -- first.  The emitted route/class text itself is template output and
      -- is not modelled.
      match env sid with
      | none => Except.error PyErr.keyError
      | some s =>
        if s.keyword = KW.simple "augment" then
          match s.iTargetNode with
          | none =>
            let w := printWarning "Target missing from augment statement"
              "Target missing from augment statement" (some (ctx.debug, ctx.verbose)) st.warn
            Except.ok { st with warn := w }
          | some tgt =>
            match getModule fuel env ctx tgt with
            | none => Except.error PyErr.attributeError
            | some tm =>
              match env tm with
              | none => Except.error PyErr.keyError
              | some tms =>
                Except.ok { st with augmented := dictInsert tms.arg tm st.augmented }
        else
          match genStep fuel env ctx st
              (GenCall.childList (searchList fuel env sid yangelementKws)) with
          | Except.error e => Except.error e
          | Except.ok st1 =>
            let hasV := (searchOne fuel env sid (KW.ext "csp-common" "vertex") none).isSome
            let hasE := (searchOne fuel env sid (KW.ext "csp-common" "edge") none).isSome
            if hasV ∨ hasE then
              if s.keyword = KW.simple "container" then Except.ok st1
              else
                match getStmtKey fuel env ctx st1.warn sid with
                | Except.error e => Except.error e
                | Except.ok (_, ws2) =>
                  Except.ok { st1 with warn := ws2, units := st1.units ++ [sid] }
            else Except.ok st1
    | GenCall.childList chs =>
      -- the `for ch in search(stmt, list(yangelement_stmts))` loop of
      -- `generate_class`: each child gets a child generator whose
      -- `generate()` is run.
      match chs with
      | [] => Except.ok st
      | ch :: rest =>
        match genStep fuel env ctx st (GenCall.dispatch ch) with
        | Except.error e => Except.error e
        | Except.ok st1 => genStep fuel env ctx st1 (GenCall.childList rest)
    | GenCall.classes sid =>
      -- `ClassGenerator.generate_classes`: asserts the statement is a
      -- module, then runs `generate_routeclass` for the module itself
      -- (when it has a yangelement substatement) and for every included
      -- submodule found in `ctx.modules`.
      match env sid with
      | none => Except.error PyErr.keyError
      | some s =>
        if ¬ s.keyword = KW.simple "module" then Except.error PyErr.assertionError
        else
          let includedArgs : List (Option String) :=
            (searchList fuel env sid ["include"]).map (fun i => (env i).bind (fun x => x.arg))
          let subs : List Nat :=
            (ctx.modules.filter (fun p => includedArgs.any (fun a => a = some p.1.1))).map
              (fun p => p.2)
          let mods := (if isIncludeYangelement env sid then [sid] else []) ++ subs
          genStep fuel env ctx st (GenCall.routeList mods)
    | GenCall.routeList ms =>
      -- the loop over the module set of `generate_classes`.
      match ms with
      | [] => Except.ok st
      | m :: rest =>
        match genStep fuel env ctx st (GenCall.route m) with
        | Except.error e => Except.error e
        | Except.ok st1 => genStep fuel env ctx st1 (GenCall.routeList rest)
    | GenCall.route m =>
      -- `ClassGenerator.generate_routeclass`: when the module has any
      -- yangelement or augment statement, its yangelement children that
      -- originate in this module are processed.  Route text,
      -- namespace/prefix lookups and file writes are emission-stage work
      -- and are not modelled.
      let res := searchList fuel env m (yangelementKws ++ ["augment"])
      if 0 < res.length then
        genStep fuel env ctx st (GenCall.routeChildren m (searchList fuel env m yangelementKws))
      else Except.ok st
    | GenCall.routeChildren m chs =>
      -- the child loop of `generate_routeclass`, with its
      -- `stmt.i_orig_module.arg == module.arg` filter; rpc and
      -- notification children produce only route text (not modelled),
      -- container and list children get child generators.
      match chs with
      | [] => Except.ok st
      | ch :: rest =>
        let stepRes : Except PyErr GenSt :=
          match env ch, env m with
          | some cs, some ms' =>
            if ((env cs.iOrigModule).bind (fun x => x.arg)) = ms'.arg then
              if cs.keyword = KW.simple "rpc" ∨ cs.keyword = KW.simple "notification" then
                Except.ok st
              else genStep fuel env ctx st (GenCall.dispatch ch)
            else Except.ok st
          | _, _ => Except.error PyErr.keyError
        match stepRes with
        | Except.error e => Except.error e
        | Except.ok st1 => genStep fuel env ctx st1 (GenCall.routeChildren m rest)

/-- Models `ClassGenerator.generate()`. -/
def generateDispatch (fuel : Nat) (env : Env) (ctx : Ctx) (st : GenSt) (sid : Nat) :
    Except PyErr GenSt :=
  genStep fuel env ctx st (GenCall.dispatch sid)

/-- Models `ClassGenerator.generate_class`. -/
def generateClass (fuel : Nat) (env : Env) (ctx : Ctx) (st : GenSt) (sid : Nat) :
    Except PyErr GenSt :=
  genStep fuel env ctx st (GenCall.cls sid)

/-- Models `ClassGenerator.generate_classes`. -/
def generateClasses (fuel : Nat) (env : Env) (ctx : Ctx) (st : GenSt) (sid : Nat) :
    Except PyErr GenSt :=
  genStep fuel env ctx st (GenCall.classes sid)

/-- Models `ClassGenerator.generate_routeclass`. -/
def generateRouteclass (fuel : Nat) (env : Env) (ctx : Ctx) (st : GenSt) (m : Nat) :
    Except PyErr GenSt :=
  genStep fuel env ctx st (GenCall.route m)

/-- The full walker state: the plugin's `done` set, a log of the modules
whose subtree generation was actually started (one entry per
`generator.generate()` call made by `generate_from`), and the generator
state. -/
structure WalkSt where
  done : List Nat
  walked : List Nat
  gen : GenSt
  deriving DecidableEq, Repr

/-- The walker state at plugin construction. -/
def initWalkSt : WalkSt :=
  { done := [], walked := [],
    gen := { augmented := [], units := [], warn := emptyWarn } }

/-- Models `JRCPlugin.generate_from`: return immediately for a module already in
the `done` set, otherwise add it and run a `ClassGenerator` over it
(unless class generation is disabled).  An empty `ctx.rootpkg` leaves the
`mopkg` local unbound in the source, so the generator call raises
`NameError`. -/
def generateFrom (fuel : Nat) (env : Env) (ctx : Ctx) (st : WalkSt) (m : Nat) :
    Except PyErr WalkSt :=
  if m ∈ st.done then Except.ok st
  else
    let done1 := st.done ++ [m]
    if ctx.rootpkg = "" then Except.error PyErr.nameError
    else if ctx.noClasses then Except.ok { st with done := done1 }
    else
      match generateDispatch fuel env ctx st.gen m with
      | Except.error e => Except.error e
      | Except.ok g => Except.ok { done := done1, walked := st.walked ++ [m], gen := g }

/-- A fold of `generate_from` over a module list. -/
def goFrom (fuel : Nat) (env : Env) (ctx : Ctx) : WalkSt → List Nat → Except PyErr WalkSt
  | st, [] => Except.ok st
  | st, m :: rest =>
    match generateFrom fuel env ctx st m with
    | Except.error e => Except.error e
    | Except.ok st1 => goFrom fuel env ctx st1 rest

/-- Models `JRCPlugin.emit`: triage the diagnostics, then `generate_from` every
supplied statement whose keyword is `module` (the source first wraps the
list in a set, modelled by deduplication; set order is unspecified), and
finally `generate_from` every value of the accumulated
`augmented_modules` map, in insertion order. -/
def emitModel (fuel : Nat) (env : Env) (ctx : Ctx) (isErr : String → Bool)
    (errors : List (String × String × Nat)) (modules : List Nat) (st : WalkSt) :
    Except PyErr WalkSt :=
  match checkErrors isErr ctx.ignore errors st.gen.warn with
  | Except.error e => Except.error e
  | Except.ok ws =>
    let st1 : WalkSt := { st with gen := { st.gen with warn := ws } }
    let prims := (modules.dedup).filter (fun m =>
      match env m with
      | some s => decide (s.keyword = KW.simple "module")
      | none => false)
    match goFrom fuel env ctx st1 prims with
    | Except.error e => Except.error e
    | Except.ok st2 => goFrom fuel env ctx st2 (st2.gen.augmented.map (fun p => p.2))

/-- Positional statement constructor for the concrete schema fixtures. -/
def mkStmt (kw : KW) (arg : Option String) (parent top : Option Nat)
    (subs : List Nat) (ich : Option (List Nat)) (itd : Option (Option Nat))
    (ilr : Option Nat) (orig : Nat) (itgt : Option Nat) : Stmt :=
  { keyword := kw, arg := arg, parent := parent, top := top, substmts := subs,
    iChildren := ich, iTypedef := itd, iLeafref := ilr, iOrigModule := orig,
    iTargetNode := itgt }

/-- Fixture for C1: module `m` holding the typedef chain
`t3 -> t2 -> t1 -> uint32`, a leaf of `t3` (id 1), a leaf of `uint32`
directly (id 9), and a leaf of `leafref` (id 11) resolved to a `uint16`
leaf (id 13). -/
def chainEnv : Env := fun n =>
  match n with
  | 0 => some (mkStmt (KW.simple "module") (some "m") none none
      [1, 3, 5, 7, 9, 11, 13] (some [1, 9, 11, 13]) none none 0 none)
  | 1 => some (mkStmt (KW.simple "leaf") (some "if3") (some 0) (some 0)
      [2] (some []) none none 0 none)
  | 2 => some (mkStmt (KW.simple "type") (some "t3") (some 1) (some 0)
      [] none (some (some 3)) none 0 none)
  | 3 => some (mkStmt (KW.simple "typedef") (some "t3") (some 0) (some 0)
      [4] none none none 0 none)
  | 4 => some (mkStmt (KW.simple "type") (some "t2") (some 3) (some 0)
      [] none (some (some 5)) none 0 none)
  | 5 => some (mkStmt (KW.simple "typedef") (some "t2") (some 0) (some 0)
      [6] none none none 0 none)
  | 6 => some (mkStmt (KW.simple "type") (some "t1") (some 5) (some 0)
      [] none (some (some 7)) none 0 none)
  | 7 => some (mkStmt (KW.simple "typedef") (some "t1") (some 0) (some 0)
      [8] none none none 0 none)
  | 8 => some (mkStmt (KW.simple "type") (some "uint32") (some 7) (some 0)
      [] none none none 0 none)
  | 9 => some (mkStmt (KW.simple "leaf") (some "if0") (some 0) (some 0)
      [10] (some []) none none 0 none)
  | 10 => some (mkStmt (KW.simple "type") (some "uint32") (some 9) (some 0)
      [] none none none 0 none)
  | 11 => some (mkStmt (KW.simple "leaf") (some "lref") (some 0) (some 0)
      [12] (some []) none (some 13) 0 none)
  | 12 => some (mkStmt (KW.simple "type") (some "leafref") (some 11) (some 0)
      [] none none none 0 none)
  | 13 => some (mkStmt (KW.simple "leaf") (some "if16") (some 0) (some 0)
      [14] (some []) none none 0 none)
  | 14 => some (mkStmt (KW.simple "type") (some "uint16") (some 13) (some 0)
      [] none none none 0 none)
  | _ => none

/-- The run context for the C1 and C4 fixtures: a one-segment root prefix
and verbose mode (so degraded-type warnings are printed). -/
def ctx1 : Ctx :=
  { rootpkg := "root", debug := false, verbose := true, ignore := false,
    noClasses := false, modules := [] }

/-- Fixture for C4: module `m` with a leaf whose type `my-type` has no
`i_typedef` linkage at all. -/
def env4 : Env := fun n =>
  match n with
  | 0 => some (mkStmt (KW.simple "module") (some "m") none none
      [1] (some [1]) none none 0 none)
  | 1 => some (mkStmt (KW.simple "leaf") (some "my-leaf") (some 0) (some 0)
      [2] (some []) none none 0 none)
  | 2 => some (mkStmt (KW.simple "type") (some "my-type") (some 1) (some 0)
      [] none none none 0 none)
  | _ => none

/-- The warning state after the first unresolved-type warning of the C4
fixture. -/
def c4ws : WarnSt :=
  { outputted := ["root.mo.m.myLeaf.MyType"],
    printed :=
      ["WARNING: No support for type \x22root.mo.m.myLeaf.MyType\x22, defaulting to string."] }

/-- Fixture for C5: module `m` with containers `a > b > c`, a leaf (id 4)
three containers deep, and in parallel under `b` a choice (id 6) with a
case (id 7) holding a leaf (id 9), next to a sibling leaf (id 10) attached
to `b` directly. -/
def pkgEnv : Env := fun n =>
  match n with
  | 0 => some (mkStmt (KW.simple "module") (some "m") none none
      [1] (some [1]) none none 0 none)
  | 1 => some (mkStmt (KW.simple "container") (some "a") (some 0) (some 0)
      [2] (some [2]) none none 0 none)
  | 2 => some (mkStmt (KW.simple "container") (some "b") (some 1) (some 0)
      [3, 6, 10] (some [3, 6, 10]) none none 0 none)
  | 3 => some (mkStmt (KW.simple "container") (some "c") (some 2) (some 0)
      [4] (some [4]) none none 0 none)
  | 4 => some (mkStmt (KW.simple "leaf") (some "x") (some 3) (some 0)
      [] (some []) none none 0 none)
  | 6 => some (mkStmt (KW.simple "choice") (some "ch") (some 2) (some 0)
      [7] (some [7]) none none 0 none)
  | 7 => some (mkStmt (KW.simple "case") (some "cs") (some 6) (some 0)
      [9] (some [9]) none none 0 none)
  | 9 => some (mkStmt (KW.simple "leaf") (some "y") (some 7) (some 0)
      [] (some []) none none 0 none)
  | 10 => some (mkStmt (KW.simple "leaf") (some "z") (some 2) (some 0)
      [] (some []) none none 0 none)
  | _ => none

/-- A fixed context for the C5 counterexample: one root-prefix segment. -/
def ctx5 : Ctx :=
  { rootpkg := "root", debug := false, verbose := false, ignore := false,
    noClasses := false, modules := [] }

/-- Fixture for C6: module `m` with a config list `item` that carries a
`csp-common:vertex` extension and has no `key` substatement. -/
def env6 : Env := fun n =>
  match n with
  | 0 => some (mkStmt (KW.simple "module") (some "m") none none
      [1] (some [1]) none none 0 none)
  | 1 => some (mkStmt (KW.simple "list") (some "item") (some 0) (some 0)
      [2, 3] (some [3]) none none 0 none)
  | 2 => some (mkStmt (KW.ext "csp-common" "vertex") none (some 1) (some 0)
      [] none none none 0 none)
  | 3 => some (mkStmt (KW.simple "leaf") (some "name") (some 1) (some 0)
      [4] (some []) none none 0 none)
  | 4 => some (mkStmt (KW.simple "type") (some "string") (some 3) (some 0)
      [] none none none 0 none)
  | _ => none

/-- Fixture for the C2/C10 witnesses: module `n` (id 0) with a container
`box` (id 1), and an augment statement (id 2) whose resolved target is
that container. -/
def envA : Env := fun n =>
  match n with
  | 0 => some (mkStmt (KW.simple "module") (some "n") none none
      [1] (some [1]) none none 0 none)
  | 1 => some (mkStmt (KW.simple "container") (some "box") (some 0) (some 0)
      [] (some []) none none 0 none)
  | 2 => some (mkStmt (KW.simple "augment") (some "/n:box") none none
      [] none none none 2 (some 1))
  | _ => none

/-- The statement record of the augment fixture node. -/
def augStmt : Stmt :=
  mkStmt (KW.simple "augment") (some "/n:box") none none [] none none none 2 (some 1)

/-- The statement record of the target module fixture node. -/
def modNStmt : Stmt :=
  mkStmt (KW.simple "module") (some "n") none none [1] (some [1]) none none 0 none

/-- The empty generator state. -/
def genA : GenSt := { augmented := [], units := [], warn := emptyWarn }

/-- The walker state after the C10 witness run over module 0. -/
def walkA : WalkSt := { done := [0], walked := [0], gen := genA }

/-- A cache state is valid when every cached entry equals the pure
computation on its key. -/
def ValidCaches (st : CacheSt) : Prop :=
  (∀ p ∈ st.cam, p.2 = camelizeRaw p.1) ∧ (∀ p ∈ st.norm, p.2 = normalizeRaw p.1)

/-- The walker invariant for the done-set argument: the walk log has no
duplicates and every walked module is recorded as done. -/
def WalkInv (st : WalkSt) : Prop :=
  st.walked.Nodup ∧ ∀ m ∈ st.walked, m ∈ st.done

/-- Claim C7: for the raw identifiers `class` and `5g-rate`, both the
member form (`camelize`) and the type form (`normalize`) are never equal
to any reserved word and never begin with a digit; the member form of
`class` is the reserved word with a single trailing underscore appended,
the member form of `5g-rate` has an underscore prepended, and both type
forms drop the escape underscore in favour of a leading `J`. -/
theorem c7_escape_correctness :
    camelizeRaw "class" = "class_" ∧
    camelizeRaw "5g-rate" = "_5gRate" ∧
    normalizeRaw "class" = "JClass" ∧
    listContainsStr (javaReservedWords ++ javaLiterals) (camelizeRaw "class") = false ∧
    listContainsStr (javaReservedWords ++ javaLiterals) (normalizeRaw "class") = false ∧
    listContainsStr (javaReservedWords ++ javaLiterals) (camelizeRaw "5g-rate") = false ∧
    listContainsStr (javaReservedWords ++ javaLiterals) (normalizeRaw "5g-rate") = false ∧
    ((camelizeRaw "class").data.headD ' ').isDigit = false ∧
    ((normalizeRaw "class").data.headD ' ').isDigit = false ∧
    ((camelizeRaw "5g-rate").data.headD ' ').isDigit = false ∧
    ((normalizeRaw "5g-rate").data.headD ' ').isDigit = false ∧
    endsU (normalizeRaw "class") = false ∧
    startsU (normalizeRaw "5g-rate") = false ∧
    (normalizeRaw "class").data.headD ' ' = 'J' ∧
    (normalizeRaw "5g-rate").data.headD ' ' = 'J' := by
  decide

/-- Claim C8: `camelize` merges hyphen, dot and underscore separators by
capitalizing exactly the character that follows the separator and
lower-cases the first character; consecutive separators are not collapsed
further (the `--` pair keeps one literal separator character instead of
merging to `aB`). -/
theorem c8_separator_rule :
    camelizeRaw "ietf-interfaces" = "ietfInterfaces" ∧
    camelizeRaw "a.b_c" = "aBC" ∧
    camelizeRaw "Foo" = "foo" ∧
    camelizeRaw "a--b" = "a-b" := by
  decide

/-- Claim C1: on the typedef chain `t3 -> t2 -> t1 -> uint32`, the leaf of
`t3` resolves to the same primitive classification (`long`) as a leaf of
`uint32` resolved directly, while its qualified wrapper name is the
package-qualified normalized name of the typedef `t3` (declared directly
under module `m`), not the built-in's wrapper; and a leaf of `leafref`
whose resolved target is a `uint16` leaf resolves to the unsigned 16-bit
wrapper, not to a generic leafref type.  The warning state is arbitrary
and is returned unchanged. -/
theorem c1_typedef_chain_and_leafref :
    ∀ ws : WarnSt,
      getTypes 30 chainEnv ctx1 ws 1 = Except.ok (("root.mo.m.T3", "long"), ws) ∧
      getTypes 30 chainEnv ctx1 ws 9 = Except.ok (("com.tailf.jnc.YangUInt32", "long"), ws) ∧
      getTypes 30 chainEnv ctx1 ws 11 = Except.ok (("com.tailf.jnc.YangUInt16", "int"), ws) ∧
      "root.mo.m.T3" ≠ "com.tailf.jnc.YangUInt32" ∧
      "com.tailf.jnc.YangUInt16" ≠ "com.tailf.jnc.YangLeafref" := by
  intro ws
  exact ⟨rfl, rfl, rfl, by decide, by decide⟩

/-- Claim C4 (evidence): on a type node with no `i_typedef` linkage,
`get_types` returns normally — but with the wrapper and classification
derived from the unresolved name itself (`MyType`), not with the string
classification that the emitted warning text promises; exactly one warning
keyed by package plus name is printed, and a re-encounter of the same key
adds no further output and leaves the warning state unchanged. -/
theorem c4_unresolved_type_keeps_name_classification :
    getTypes 30 env4 ctx1 emptyWarn 1 =
      Except.ok (("com.tailf.jnc.YangMyType", "MyType"), c4ws) ∧
    getTypes 30 env4 ctx1 c4ws 1 =
      Except.ok (("com.tailf.jnc.YangMyType", "MyType"), c4ws) ∧
    "MyType" ≠ "String" ∧
    c4ws.printed.length = 1 := by
  exact ⟨rfl, rfl, by decide, by decide⟩

/-- Claim C5 (amended): the package path is the root-prefix segments, then
the fixed variant segment — `mo` for the internal variant, `api` for the
external one — then one camelized segment per non-transparent ancestor
including the top module; choice and case ancestors contribute no segment
(a leaf reached through a choice and a case gets the same path as a leaf
attached to the same container directly). -/
theorem c5_package_path_segments :
    ∀ ctx : Ctx,
      getPackage 30 pkgEnv ctx 4 =
        joinWith "." (pySplit ctx.rootpkg '/' ++ ["mo", "m", "a", "b", "c"]) ∧
      getApiPackage 30 pkgEnv ctx 4 =
        joinWith "." (pySplit ctx.rootpkg '/' ++ ["api", "m", "a", "b", "c"]) ∧
      getPackage 30 pkgEnv ctx 9 =
        joinWith "." (pySplit ctx.rootpkg '/' ++ ["mo", "m", "a", "b"]) ∧
      getPackage 30 pkgEnv ctx 9 = getPackage 30 pkgEnv ctx 10 := by
  intro ctx
  exact ⟨rfl, rfl, rfl, rfl⟩

/-- Claim C5 (counterexample): for the leaf nested three containers deep,
with a one-segment root prefix, the internal-variant path has 6 segments —
not root-prefix-segments + 3 = 4 — and its fixed variant segment is `mo`,
not `model`. -/
theorem c5_cex_variant_and_length :
    getPackage 30 pkgEnv ctx5 4 = "root.mo.m.a.b.c" ∧
    (pySplit (getPackage 30 pkgEnv ctx5 4) '.').length = 6 ∧
    (pySplit ctx5.rootpkg '/').length + 3 = 4 ∧
    ¬ (pySplit (getPackage 30 pkgEnv ctx5 4) '.').length =
        (pySplit ctx5.rootpkg '/').length + 3 ∧
    ((pySplit (getPackage 30 pkgEnv ctx5 4) '.').getD 1 "") = "mo" ∧
    "mo" ≠ "model" := by
  refine ⟨rfl, by decide, by decide, by decide, by decide, by decide⟩

/-- Claim C6 (evidence): the list `item` is config and has no `key`
substatement, and `get_stmt_key` on it raises an uncaught `TypeError`
(the `except AttributeError` handler itself evaluates
`'Unknown attribute: ' + None`) instead of substituting an empty key list
and warning; the walk over the vertex-annotated list therefore aborts. -/
theorem c6_missing_key_raises :
    isConfig 30 env6 ctx1 (some 1) = some true ∧
    searchOne 30 env6 1 (KW.simple "key") none = none ∧
    getStmtKey 30 env6 ctx1 emptyWarn 1 = Except.error PyErr.typeError ∧
    generateClass 30 env6 ctx1 genA 1 = Except.error PyErr.typeError := by
  exact ⟨rfl, rfl, rfl, rfl⟩

/-- A tag in the module-not-found family is never in the soft set. -/
theorem mnfNotSoft (t : String) (h : listContainsStr moduleNotFoundTags t = true) :
    listContainsStr softTags t = false := by
  unfold listContainsStr moduleNotFoundTags at h
  simp only [List.any_cons, List.any_nil, Bool.or_false, Bool.or_eq_true,
    decide_eq_true_eq] at h
  rcases h with h | h <;> subst h <;> decide

/-- Claim C3 (counterexample): with ignore-errors unset, a diagnostic
whose tag is neither in the module-not-found family nor in the soft set —
here `UNEXPECTED_KEYWORD` — also aborts the run, contradicting the claim
that no other tag does. -/
theorem c3_cex_other_tag_aborts :
    exceptOk (checkErrors (fun _ => true) false
      [("m1", "UNEXPECTED_KEYWORD", 1)] emptyWarn) = false ∧
    listContainsStr moduleNotFoundTags "UNEXPECTED_KEYWORD" = false ∧
    listContainsStr softTags "UNEXPECTED_KEYWORD" = false := by
  decide

/-- Claim C3 (amended): with ignore-errors set the triage is skipped
entirely; with it unset, diagnostics are scanned in order and the run
survives the scan exactly when every reported tag is in the soft set
(`TYPE_NOT_FOUND`, `FEATURE_NOT_FOUND`, `IDENTITY_NOT_FOUND`,
`GROUPING_NOT_FOUND`): an error-level module-not-found tag aborts at once,
and every other tag outside the soft set also aborts, after printing an
`aborting` warning. -/
theorem c3_amended_triage :
    (∀ (isErr : String → Bool) (errors : List (String × String × Nat)) (ws : WarnSt),
      checkErrors isErr true errors ws = Except.ok ws) ∧
    (∀ (isErr : String → Bool) (errors : List (String × String × Nat)) (ws : WarnSt),
      exceptOk (checkErrors isErr false errors ws) = true ↔
        ∀ e ∈ errors, listContainsStr softTags e.2.1 = true) := by
  constructor
  · intro isErr errors ws
    simp [checkErrors]
  · intro isErr errors ws
    simp only [checkErrors, if_neg (by decide : ¬ (false : Bool) = true)]
    induction errors generalizing ws with
    | nil => simp [checkErrorsGo, exceptOk]
    | cons e rest ih =>
      obtain ⟨p, t, n⟩ := e
      by_cases hm : isErr t ∧ listContainsStr moduleNotFoundTags t = true
      · have hsoft := mnfNotSoft t hm.2
        simp [checkErrorsGo, hm, exceptOk, hsoft]
      · by_cases hs : listContainsStr softTags t = true
        · simp [checkErrorsGo, hm, hs, ih]
        · simp [checkErrorsGo, hm, hs, exceptOk]

/-- Claim C3 (witness for the amended theorem): a run with ignore-errors
set returns at once, and a run over a single soft diagnostic survives the
scan. -/
theorem c3_amended_triage_witness :
    checkErrors (fun _ => true) true [("p", "BAD_VALUE", 0)] emptyWarn =
      Except.ok emptyWarn ∧
    exceptOk (checkErrors (fun _ => true) false
      [("p", "TYPE_NOT_FOUND", 0)] emptyWarn) = true :=
  ⟨c3_amended_triage.1 (fun _ => true) [("p", "BAD_VALUE", 0)] emptyWarn,
   (c3_amended_triage.2 (fun _ => true) [("p", "TYPE_NOT_FOUND", 0)] emptyWarn).mpr
     (by decide)⟩

/-- The empty caches are valid. -/
theorem validInitialCaches : ValidCaches initialCaches := by
  constructor <;> intro p hp <;> simp [initialCaches] at hp

/-- A hit in a valid camelize cache returns the pure value. -/
theorem lookupCam_valid {st : CacheSt} (h : ValidCaches st) {x v : String}
    (hl : lookupCache st.cam x = some v) : v = camelizeRaw x := by
  unfold lookupCache at hl
  cases hf : st.cam.find? (fun p => p.1 = x) with
  | none => simp [hf] at hl
  | some q =>
    simp [hf] at hl
    have hq : q.1 = x := by
      have := List.find?_some hf
      simpa using this
    have hmem := List.mem_of_find?_eq_some hf
    have := h.1 q hmem
    rw [← hl, this, hq]

/-- A hit in a valid normalize cache returns the pure value. -/
theorem lookupNorm_valid {st : CacheSt} (h : ValidCaches st) {x v : String}
    (hl : lookupCache st.norm x = some v) : v = normalizeRaw x := by
  unfold lookupCache at hl
  cases hf : st.norm.find? (fun p => p.1 = x) with
  | none => simp [hf] at hl
  | some q =>
    simp [hf] at hl
    have hq : q.1 = x := by
      have := List.find?_some hf
      simpa using this
    have hmem := List.mem_of_find?_eq_some hf
    have := h.2 q hmem
    rw [← hl, this, hq]

/-- On a valid cache, the cached `camelize` returns the pure value and
preserves validity. -/
theorem camelizeCall_spec {st : CacheSt} (h : ValidCaches st) (x : String) :
    (camelizeCall st x).1 = camelizeRaw x ∧ ValidCaches (camelizeCall st x).2 := by
  unfold camelizeCall
  cases hl : lookupCache st.cam x with
  | some v =>
    exact ⟨lookupCam_valid h hl, h⟩
  | none =>
    refine ⟨rfl, ⟨?_, h.2⟩⟩
    intro p hp
    rcases List.mem_append.mp hp with hp | hp
    · exact h.1 p hp
    · simp at hp
      rw [hp]

/-- On a valid cache, the cached `normalize` returns the pure value and
preserves validity. -/
theorem normalizeCall_spec {st : CacheSt} (h : ValidCaches st) (x : String) :
    (normalizeCall st x).1 = normalizeRaw x ∧ ValidCaches (normalizeCall st x).2 := by
  unfold normalizeCall
  cases hl : lookupCache st.norm x with
  | some v =>
    exact ⟨lookupNorm_valid h hl, h⟩
  | none =>
    have hc := camelizeCall_spec h x
    dsimp only
    refine ⟨?_, ⟨hc.2.1, ?_⟩⟩
    · rw [hc.1]
      rfl
    · intro p hp
      rcases List.mem_append.mp hp with hp | hp
      · exact hc.2.2 p hp
      · have hp' : p = (x, normalizeFromCam (camelizeCall st x).1) := by
          simpa using hp
        rw [hp', hc.1]
        rfl

/-- Any cache state reachable by a sequence of cached calls from a valid
state is valid. -/
theorem runCalls_valid {st : CacheSt} (h : ValidCaches st) (ops : List NameCall) :
    ValidCaches (runCalls st ops) := by
  induction ops generalizing st with
  | nil => exact h
  | cons op rest ih =>
    cases op with
    | cam s => exact ih (camelizeCall_spec h s).2
    | norm s => exact ih (normalizeCall_spec h s).2

/-- Claim C9: after any sequence of interleaved cached `camelize` /
`normalize` calls from the interpreter-start state, calling either
function on any identifier returns exactly the pure computation on that
identifier — so two calls on the same identifier return identical strings,
the result is independent of calls on other identifiers, and an immediate
repeat of a `normalize` call returns the same string again. -/
theorem c9_cache_idempotent_and_isolated :
    ∀ (ops : List NameCall) (x : String),
      (camelizeCall (runCalls initialCaches ops) x).1 = camelizeRaw x ∧
      (normalizeCall (runCalls initialCaches ops) x).1 = normalizeRaw x ∧
      (normalizeCall (normalizeCall (runCalls initialCaches ops) x).2 x).1 =
        (normalizeCall (runCalls initialCaches ops) x).1 := by
  intro ops x
  have hv := runCalls_valid validInitialCaches ops
  have h1 := camelizeCall_spec hv x
  have h2 := normalizeCall_spec hv x
  have h3 := normalizeCall_spec h2.2 x
  exact ⟨h1.1, h2.1, by rw [h3.1, h2.1]⟩

/-- Claim C2: (1) `generate_class` on an augment statement with a resolved
target records the target's module in the augment map keyed by that
module's argument and changes nothing else — no generated unit, no
recursion into the augment's subtree; (2) after the triage and the full
primary-module pass, the run is exactly one more `generate_from` pass over
the recorded augment-target map values, in insertion order; (3) a recorded
target that was not already processed has its subtree walk started exactly
once by that pass. -/
theorem c2_augment_redirect_and_second_pass :
    (∀ (fuel : Nat) (env : Env) (ctx : Ctx) (st : GenSt) (sid tgt tm : Nat)
        (s tms : Stmt),
      env sid = some s → s.keyword = KW.simple "augment" → s.iTargetNode = some tgt →
      getModule fuel env ctx tgt = some tm → env tm = some tms →
      generateClass (fuel + 1) env ctx st sid =
        Except.ok { st with augmented := dictInsert tms.arg tm st.augmented }) ∧
    (∀ (fuel : Nat) (env : Env) (ctx : Ctx) (isErr : String → Bool)
        (errors : List (String × String × Nat)) (modules : List Nat) (st : WalkSt)
        (ws : WarnSt) (st2 : WalkSt),
      checkErrors isErr ctx.ignore errors st.gen.warn = Except.ok ws →
      goFrom fuel env ctx { st with gen := { st.gen with warn := ws } }
        ((modules.dedup).filter (fun m =>
          match env m with
          | some s => decide (s.keyword = KW.simple "module")
          | none => false)) = Except.ok st2 →
      emitModel fuel env ctx isErr errors modules st =
        goFrom fuel env ctx st2 (st2.gen.augmented.map (fun p => p.2))) ∧
    (∀ (fuel : Nat) (env : Env) (ctx : Ctx) (st : WalkSt) (m : Nat) (g : GenSt),
      ¬ m ∈ st.done → ¬ ctx.rootpkg = "" → ctx.noClasses = false →
      generateDispatch fuel env ctx st.gen m = Except.ok g →
      generateFrom fuel env ctx st m =
        Except.ok { done := st.done ++ [m], walked := st.walked ++ [m], gen := g }) := by
  refine ⟨?_, ?_, ?_⟩
  · intro fuel env ctx st sid tgt tm s tms h1 h2 h3 h4 h5
    simp [generateClass, genStep, h1, h2, h3, h4, h5]
  · intro fuel env ctx isErr errors modules st ws st2 h1 h2
    unfold emitModel
    rw [h1]
    dsimp only at h2 ⊢
    rw [h2]
  · intro fuel env ctx st m g hmem hroot hnc hdisp
    unfold generateFrom
    rw [if_neg hmem, if_neg hroot, hdisp]
    simp [hnc]

/-- Claim C2 (witness): on the concrete fixture, `generate_class` applied
to the augment statement records module `n` under its name and leaves the
rest of the state unchanged, and a fresh target module's walk is started
exactly once by `generate_from`. -/
theorem c2_witness :
    generateClass 11 envA ctx1 genA 2 =
      Except.ok { augmented := [(some "n", 0)], units := [], warn := emptyWarn } ∧
    generateFrom 11 envA ctx1 initWalkSt 0 = Except.ok walkA :=
  ⟨c2_augment_redirect_and_second_pass.1 10 envA ctx1 genA 2 1 0 augStmt modNStmt
      rfl rfl rfl rfl rfl,
   c2_augment_redirect_and_second_pass.2.2 11 envA ctx1 initWalkSt 0 genA
      (by decide) (by decide) rfl rfl⟩

/-- Models `generate_from` preserves the walker invariant: an already-done module
changes nothing; a fresh module is appended to both the done set and the
walk log (or only the done set when class generation is off). -/
theorem generateFrom_inv {fuel : Nat} {env : Env} {ctx : Ctx} {st st' : WalkSt} {m : Nat}
    (hinv : WalkInv st) (h : generateFrom fuel env ctx st m = Except.ok st') :
    WalkInv st' := by
  unfold generateFrom at h
  by_cases hm : m ∈ st.done
  · rw [if_pos hm] at h
    cases h
    exact hinv
  · rw [if_neg hm] at h
    by_cases hr : ctx.rootpkg = ""
    · rw [if_pos hr] at h
      cases h
    · rw [if_neg hr] at h
      by_cases hnc : ctx.noClasses = true
      · simp only [hnc, if_true] at h
        cases h
        refine ⟨hinv.1, ?_⟩
        intro x hx
        exact List.mem_append_left _ (hinv.2 x hx)
      · simp only [Bool.not_eq_true] at hnc
        simp only [hnc, Bool.false_eq_true, if_false] at h
        cases hd : generateDispatch fuel env ctx st.gen m with
        | error e => rw [hd] at h; cases h
        | ok g =>
          rw [hd] at h
          cases h
          constructor
          · rw [List.nodup_append]
            refine ⟨hinv.1, List.nodup_singleton m, ?_⟩
            intro x hx hx'
            have hx1 : x = m := by simpa using hx'
            subst hx1
            exact hm (hinv.2 x hx)
          · intro x hx
            rcases List.mem_append.mp hx with hx | hx
            · exact List.mem_append_left _ (hinv.2 x hx)
            · exact List.mem_append_right _ hx

/-- A `generate_from` fold preserves the walker invariant. -/
theorem goFrom_inv {fuel : Nat} {env : Env} {ctx : Ctx} :
    ∀ (l : List Nat) {st st' : WalkSt}, WalkInv st →
      goFrom fuel env ctx st l = Except.ok st' → WalkInv st' := by
  intro l
  induction l with
  | nil =>
    intro st st' hinv h
    cases h
    exact hinv
  | cons m rest ih =>
    intro st st' hinv h
    unfold goFrom at h
    cases hg : generateFrom fuel env ctx st m with
    | error e => rw [hg] at h; cases h
    | ok st1 =>
      rw [hg] at h
      exact ih (generateFrom_inv hinv hg) h

/-- Claim C10: `generate_from` returns immediately for a module already in
the done set, and a full `emit` run from the initial state — primary loop
and augmented loop sharing that set — starts every module's subtree walk
at most once. -/
theorem c10_module_walked_at_most_once :
    (∀ (fuel : Nat) (env : Env) (ctx : Ctx) (st : WalkSt) (m : Nat),
      m ∈ st.done → generateFrom fuel env ctx st m = Except.ok st) ∧
    (∀ (fuel : Nat) (env : Env) (ctx : Ctx) (isErr : String → Bool)
        (errors : List (String × String × Nat)) (modules : List Nat) (st' : WalkSt),
      emitModel fuel env ctx isErr errors modules initWalkSt = Except.ok st' →
      st'.walked.Nodup) := by
  constructor
  · intro fuel env ctx st m hm
    unfold generateFrom
    rw [if_pos hm]
  · intro fuel env ctx isErr errors modules st' h
    unfold emitModel at h
    split at h
    next e heq => exact Except.noConfusion h
    next ws heq =>
      dsimp only at h
      split at h
      next e heq2 => exact Except.noConfusion h
      next st2 heq2 =>
        refine (goFrom_inv _ (goFrom_inv _ ?_ heq2) h).1
        constructor
        · simp [initWalkSt]
        · intro x hx
          simp [initWalkSt] at hx

/-- Claim C10 (witness): a module already done is skipped unchanged, and
the concrete one-module run produces a duplicate-free walk log. -/
theorem c10_witness :
    generateFrom 5 envA ctx1 walkA 0 = Except.ok walkA ∧
    walkA.walked.Nodup :=
  ⟨c10_module_walked_at_most_once.1 5 envA ctx1 walkA 0 (by decide),
   c10_module_walked_at_most_once.2 11 envA ctx1 (fun _ => true) [] [0] walkA rfl⟩
